import Mathlib

/-!
# Smart Rice Dispenser, main controller (esp1.cpp): dispensing control loop

A shallow embedding of the load-cell / servo controller of `src/esp1.cpp`.

* The C++ globals `currentWeight`, `targetWeight`, `isDispensing`,
  `lastWeightRead`, `lastDataSend` and the function-local static
  `initialWeight` of `getDispensedWeight` become fields of `Controller`.
* `float` values are modelled by exact rationals (`ℚ`): the properties studied
  here are about the control flow (comparisons and one subtraction), rounding
  and NaN are not modelled.
* `unsigned long` is 32 bits wide on the ESP8266; the timer subtraction in
  `loop` is taken modulo `2^32`.
* Effects on the outside world are recorded in chronological traces kept in the
  state: angles written to the servo, levels written to the LED pin, the calls
  made to `logDispenseEvent`, and the payloads actually handed to `http.POST`.
* What the outside world answers (WiFi status, HTTP response code, `millis()`,
  the HX711, the button pin) is an explicit input of each operation.
* `Serial` output and `delay` are not modelled.
-/

namespace RiceDispenser

/-- Payload of one row posted to `/rest/v1/dispense_history`. -/
structure DispenseEvent where
  action : String
  weight : ℚ
  timestamp : Nat
  device_id : String
  deriving DecidableEq, Repr

/-- Payload of one row posted to `/rest/v1/rice_weights`. -/
structure WeightRecord where
  weight : ℚ
  timestamp : Nat
  device_id : String
  deriving DecidableEq, Repr

/-- What the network answers during one call of `logDispenseEvent` or
`sendWeightData`: whether `WiFi.status() == WL_CONNECTED`, the value `millis()`
returns inside `getCurrentTimestamp`, and the code `http.POST` returns. -/
structure Net where
  wifiConnected : Bool
  stamp : Nat
  response : Int
  deriving DecidableEq, Repr

/-- The globals of esp1.cpp, the static `initialWeight`, and the effect traces. -/
structure Controller where
  currentWeight : ℚ
  targetWeight : ℚ
  isDispensing : Bool
  lastWeightRead : Nat
  lastDataSend : Nat
  /-- the `static float initialWeight` of `getDispensedWeight` -/
  initialWeight : ℚ
  /-- angles passed to `dispenserServo.write`, oldest first -/
  servo : List Nat
  /-- levels passed to `digitalWrite(LED_PIN, _)`, `true` is `HIGH` -/
  led : List Bool
  /-- arguments of every call of `logDispenseEvent`, oldest first -/
  logged : List (String × ℚ)
  /-- payloads passed to `http.POST` by `logDispenseEvent` -/
  posted : List DispenseEvent
  /-- payloads passed to `http.POST` by `sendWeightData` -/
  weightPosts : List WeightRecord
  deriving DecidableEq, Repr

def WEIGHT_READ_INTERVAL : Nat := 1000

def DATA_SEND_INTERVAL : Nat := 5000

/-- Globals as initialised, followed by the effects of `setup()`:
`dispenserServo.write(0)` and `digitalWrite(LED_PIN, HIGH)`. -/
def setup : Controller :=
  { currentWeight := 0, targetWeight := 0, isDispensing := false,
    lastWeightRead := 0, lastDataSend := 0, initialWeight := 0,
    servo := [0], led := [true], logged := [], posted := [], weightPosts := [] }

/-- `readWeight()`: `ready` is `scale.is_ready()`, `units` is what
`scale.get_units(5)` returns. -/
def readWeight (ready : Bool) (units : ℚ) (c : Controller) : Controller :=
  if ready then
    let c1 := { c with currentWeight := units }
    if c1.currentWeight < 0 then { c1 with currentWeight := 0 } else c1
  else c

/-- `sendWeightData()`. The response code only selects a `Serial` message. -/
def sendWeightData (net : Net) (c : Controller) : Controller :=
  if net.wifiConnected then
    { c with weightPosts := c.weightPosts ++
        [{ weight := c.currentWeight, timestamp := net.stamp, device_id := "ESP32_001" }] }
  else c

/-- `logDispenseEvent(action, weight)`. Returns the new state together with the
response code of `http.POST` when a request was made; the source discards it. -/
def logDispenseEvent (net : Net) (action : String) (weight : ℚ) (c : Controller) :
    Controller × Option Int :=
  let c1 := { c with logged := c.logged ++ [(action, weight)] }
  if net.wifiConnected then
    ({ c1 with posted := c1.posted ++
        [{ action := action, weight := weight, timestamp := net.stamp,
           device_id := "ESP32_001" }] }, some net.response)
  else (c1, none)

/-- `startDispensing(weight)`. -/
def startDispensing (net : Net) (weight : ℚ) (c : Controller) : Controller :=
  let c1 := { c with targetWeight := weight }
  let c2 := { c1 with isDispensing := true }
  let c3 := { c2 with servo := c2.servo ++ [90] }
  (logDispenseEvent net "start" c3.targetWeight c3).1

/-- `getDispensedWeight()`: the returned value and the state after the call
(the static `initialWeight` may be written). -/
def getDispensedWeight (c : Controller) : ℚ × Controller :=
  let c1 := if c.isDispensing && c.initialWeight == 0
            then { c with initialWeight := c.currentWeight } else c
  if !c1.isDispensing then
    (0, { c1 with initialWeight := 0 })
  else
    (c1.initialWeight - c1.currentWeight, c1)

/-- `handleDispensing()`. -/
def handleDispensing (net : Net) (c : Controller) : Controller :=
  let r := getDispensedWeight c
  let dispensedWeight := r.1
  let c1 := r.2
  if dispensedWeight ≥ c1.targetWeight then
    let c2 := { c1 with servo := c1.servo ++ [0] }
    let c3 := { c2 with isDispensing := false }
    let c4 := (logDispenseEvent net "complete" dispensedWeight c3).1
    { c4 with led := c4.led ++ [false, true, false, true, false, true] }
  else c1

/-- Inputs read by one iteration of `loop()`. -/
structure LoopIn where
  /-- value of `millis()` at the top of the iteration, a 32-bit value -/
  currentTime : Nat
  scaleReady : Bool
  units : ℚ
  /-- `digitalRead(BUTTON_PIN) == LOW` -/
  buttonLow : Bool
  netSend : Net
  netStart : Net
  netComplete : Net
  deriving DecidableEq, Repr

/-- Subtraction of two `unsigned long` values (32 bits). -/
def subU32 (a b : Nat) : Nat := (a % 2 ^ 32 + (2 ^ 32 - b % 2 ^ 32)) % 2 ^ 32

/-- One iteration of `loop()`. -/
def loop (i : LoopIn) (c : Controller) : Controller :=
  let currentTime := i.currentTime
  let c1 := if subU32 currentTime c.lastWeightRead ≥ WEIGHT_READ_INTERVAL
            then { readWeight i.scaleReady i.units c with lastWeightRead := currentTime }
            else c
  let c2 := if subU32 currentTime c1.lastDataSend ≥ DATA_SEND_INTERVAL
            then { sendWeightData i.netSend c1 with lastDataSend := currentTime }
            else c1
  let c3 := if i.buttonLow && !c2.isDispensing
            then startDispensing i.netStart 50 c2 else c2
  if c3.isDispensing then handleDispensing i.netComplete c3 else c3

/-- The controller after `setup()` and the given iterations of `loop()`. -/
def runLoop (ins : List LoopIn) : Controller :=
  ins.foldl (fun c i => loop i c) setup

/-- A state the firmware can be in between two iterations of `loop()`. -/
def Reachable (c : Controller) : Prop := ∃ ins : List LoopIn, runLoop ins = c

def online : Net := { wifiConnected := true, stamp := 0, response := 201 }

def offline : Net := { wifiConnected := false, stamp := 0, response := -1 }

/-- Button not pressed, scale ready with reading `w`, at time `t`. -/
def sampleAt (t : Nat) (w : ℚ) : LoopIn :=
  { currentTime := t, scaleReady := true, units := w, buttonLow := false,
    netSend := online, netStart := online, netComplete := online }

/-- Button pressed at time `t`; the scale input is the reading `w`. -/
def pressAt (t : Nat) (w : ℚ) : LoopIn :=
  { currentTime := t, scaleReady := true, units := w, buttonLow := true,
    netSend := online, netStart := online, netComplete := online }

/-- A first session run to completion by the main loop: the hopper reads 200 g,
the button starts a 50 g session, the next sample reads 150 g. -/
def afterFirstSession : Controller :=
  runLoop [sampleAt 1000 200, pressAt 1100 200, sampleAt 2000 150]

/-- Scenario A just before its last tick: start of a 50 g session at 200 g,
then the samples 200, 180, 160 each followed by a tick, then the sample 150. -/
def scenarioA : Controller :=
  readWeight true 150 (handleDispensing online (readWeight true 160
    (handleDispensing online (readWeight true 180 (handleDispensing online
      (readWeight true 200
        (startDispensing online 50 { setup with currentWeight := 200 })))))))

/-- A noise spike during a session started by the main loop at 200 g: the next
sample reads 210 g. -/
def noiseSpike : Controller :=
  runLoop [sampleAt 1000 200, pressAt 1100 200, sampleAt 2000 210]

/-- A session started by the main loop before any sample was taken (weight 0),
followed by a first sample of 5 g. -/
def zeroStart : Controller :=
  runLoop [pressAt 100 0, sampleAt 1000 5]

/-- A 50 g session started at 200 g, one tick, then the sample 180. -/
def midSession : Controller :=
  readWeight true 180 (handleDispensing online
    (startDispensing online 50 { setup with currentWeight := 200 }))

/-- Everything in the state except the payloads handed to the event sink. -/
def withoutPosted (c : Controller) : Controller := { c with posted := [] }

/-- The controller variables and the servo commands issued so far. -/
def controlState (c : Controller) : ℚ × ℚ × Bool × ℚ × List Nat :=
  (c.currentWeight, c.targetWeight, c.isDispensing, c.initialWeight, c.servo)

/-- The controller one loop iteration after `setup()`, 500 ms before `millis()`
wraps: both timers have just fired at time `2^32 - 500`. -/
def beforeWrap : Controller :=
  runLoop [sampleAt 4294966796 200]

/-! ## Effects of the operations, field by field -/

theorem logDispenseEvent_frame (net : Net) (a : String) (w : ℚ) (c : Controller) :
    (logDispenseEvent net a w c).1 =
      { c with logged := c.logged ++ [(a, w)],
               posted := if net.wifiConnected then
                   c.posted ++ [{ action := a, weight := w, timestamp := net.stamp,
                                  device_id := "ESP32_001" }]
                 else c.posted } := by
  unfold logDispenseEvent
  cases net.wifiConnected <;> simp

theorem startDispensing_effect (net : Net) (T : ℚ) (c : Controller) :
    startDispensing net T c =
      { c with targetWeight := T, isDispensing := true, servo := c.servo ++ [90],
               logged := c.logged ++ [("start", T)],
               posted := if net.wifiConnected then
                   c.posted ++ [{ action := "start", weight := T, timestamp := net.stamp,
                                  device_id := "ESP32_001" }]
                 else c.posted } := by
  unfold startDispensing
  simp [logDispenseEvent_frame]

/-- While a session is active the call only ever writes the static baseline. -/
theorem getDispensedWeight_active (c : Controller) (h : c.isDispensing = true) :
    getDispensedWeight c =
      (if c.initialWeight = 0 then 0 else c.initialWeight - c.currentWeight,
       { c with initialWeight := if c.initialWeight = 0 then c.currentWeight
                                 else c.initialWeight }) := by
  cases c
  simp only at h
  subst h
  unfold getDispensedWeight
  split_ifs <;> simp_all

theorem getDispensedWeight_idle (c : Controller) (h : c.isDispensing = false) :
    getDispensedWeight c = (0, { c with initialWeight := 0 }) := by
  cases c
  simp only at h
  subst h
  simp [getDispensedWeight]

/-- Delivered mass reported right after a start, for any prior state: it is `0`
only when the static baseline was cleared or happens to equal the current weight. -/
theorem getDispensedWeight_after_start (net : Net) (T : ℚ) (c : Controller) :
    (getDispensedWeight (startDispensing net T c)).1 =
      if c.initialWeight = 0 then 0 else c.initialWeight - c.currentWeight := by
  rw [getDispensedWeight_active _ (by simp [startDispensing_effect])]
  simp [startDispensing_effect]

theorem afterFirstSession_eq :
    afterFirstSession =
      { currentWeight := 150, targetWeight := 50, isDispensing := false,
        lastWeightRead := 2000, lastDataSend := 0, initialWeight := 200,
        servo := [0, 90, 0], led := [true, false, true, false, true, false, true],
        logged := [("start", 50), ("complete", 50)],
        posted := [{ action := "start", weight := 50, timestamp := 0, device_id := "ESP32_001" },
                   { action := "complete", weight := 50, timestamp := 0,
                     device_id := "ESP32_001" }],
        weightPosts := [] } := by
  norm_num [afterFirstSession, runLoop, loop, sampleAt, pressAt, subU32, WEIGHT_READ_INTERVAL,
    DATA_SEND_INTERVAL, readWeight, sendWeightData, startDispensing, handleDispensing,
    getDispensedWeight, logDispenseEvent, online, setup]

theorem scenarioA_eq :
    scenarioA =
      { currentWeight := 150, targetWeight := 50, isDispensing := true,
        lastWeightRead := 0, lastDataSend := 0, initialWeight := 200,
        servo := [0, 90], led := [true], logged := [("start", 50)],
        posted := [{ action := "start", weight := 50, timestamp := 0, device_id := "ESP32_001" }],
        weightPosts := [] } := by
  norm_num [scenarioA, readWeight, startDispensing, handleDispensing,
    getDispensedWeight, logDispenseEvent, online, setup]

/-! ## C1: delivered mass right after a start -/

/-- C1 (the code departs from the claim). After a first session has been run to
completion by the main loop (hopper at 200 g, 50 g dispensed, hopper now at 150 g)
the static baseline still holds 200: `getDispensedWeight()` called right after a
new `startDispensing(50)`, with no new sample, returns 50 instead of 0, and the
loop iteration that starts this second session also completes it at once,
logging a second `complete` of 50 g although the weight never changed. -/
theorem stale_baseline_after_completed_session :
    Reachable afterFirstSession ∧
    afterFirstSession.isDispensing = false ∧
    afterFirstSession.currentWeight = 150 ∧
    (startDispensing online 50 afterFirstSession).currentWeight = 150 ∧
    (getDispensedWeight (startDispensing online 50 afterFirstSession)).1 = 50 ∧
    (getDispensedWeight (startDispensing online 50 afterFirstSession)).1 ≠ 0 ∧
    (loop (pressAt 2100 150) afterFirstSession).isDispensing = false ∧
    (loop (pressAt 2100 150) afterFirstSession).currentWeight = 150 ∧
    (loop (pressAt 2100 150) afterFirstSession).logged =
      [("start", 50), ("complete", 50), ("start", 50), ("complete", 50)] := by
  refine ⟨⟨_, rfl⟩, ?_⟩
  rw [afterFirstSession_eq]
  norm_num [loop, pressAt, subU32, WEIGHT_READ_INTERVAL,
    DATA_SEND_INTERVAL, readWeight, sendWeightData, startDispensing, handleDispensing,
    getDispensedWeight, logDispenseEvent, online]

/-! ## C2: a start requested while a session is active -/

/-- C2 (as stated, refuted). Starting a 100 g session on top of an active 50 g
session: the target becomes 100 and a second `start` event is logged and posted,
so the three-part claim (target kept, baseline kept, one `start` in total) fails. -/
theorem startDispensing_overlap_counterexample :
    (startDispensing online 50 { setup with currentWeight := 200 }).isDispensing = true ∧
    (startDispensing online 100
      (startDispensing online 50 { setup with currentWeight := 200 })).targetWeight = 100 ∧
    (startDispensing online 100
      (startDispensing online 50 { setup with currentWeight := 200 })).logged =
        [("start", 50), ("start", 100)] ∧
    ((startDispensing online 100
      (startDispensing online 50 { setup with currentWeight := 200 })).posted.map
        (fun e => e.action)) = ["start", "start"] ∧
    ¬ ((startDispensing online 100
          (startDispensing online 50 { setup with currentWeight := 200 })).targetWeight = 50 ∧
       (startDispensing online 100
          (startDispensing online 50 { setup with currentWeight := 200 })).initialWeight =
         (startDispensing online 50 { setup with currentWeight := 200 }).initialWeight ∧
       (startDispensing online 100
          (startDispensing online 50 { setup with currentWeight := 200 })).logged =
         [("start", 50)]) := by
  norm_num [startDispensing_effect, online, setup]

/-- C2 (amended). `startDispensing(T2)` called while a session is active keeps
the session active and leaves the baseline and `currentWeight` untouched, but it
overwrites `targetWeight` with `T2`, commands the servo open again and makes one
more `logDispenseEvent("start", T2)` call, which is posted when WiFi is up. -/
theorem startDispensing_while_active (net : Net) (T2 : ℚ) (c : Controller)
    (h : c.isDispensing = true) :
    (startDispensing net T2 c).isDispensing = true ∧
    (startDispensing net T2 c).initialWeight = c.initialWeight ∧
    (startDispensing net T2 c).currentWeight = c.currentWeight ∧
    (startDispensing net T2 c).targetWeight = T2 ∧
    (startDispensing net T2 c).servo = c.servo ++ [90] ∧
    (startDispensing net T2 c).logged = c.logged ++ [("start", T2)] ∧
    (net.wifiConnected = true →
      (startDispensing net T2 c).posted = c.posted ++
        [{ action := "start", weight := T2, timestamp := net.stamp,
           device_id := "ESP32_001" }]) := by
  have _ := h
  rw [startDispensing_effect]
  refine ⟨rfl, rfl, rfl, rfl, rfl, rfl, ?_⟩
  intro hw
  simp [hw]

theorem startDispensing_while_active_witness :
    (startDispensing online 50 { setup with currentWeight := 200 }).isDispensing = true ∧
    (startDispensing online 100
      (startDispensing online 50 { setup with currentWeight := 200 })).targetWeight = 100 ∧
    (startDispensing online 100
      (startDispensing online 50 { setup with currentWeight := 200 })).logged =
        (startDispensing online 50 { setup with currentWeight := 200 }).logged ++
          [("start", 100)] :=
  have h : (startDispensing online 50 { setup with currentWeight := 200 }).isDispensing = true := by
    simp [startDispensing_effect]
  ⟨h, (startDispensing_while_active online 100 _ h).2.2.2.1,
    (startDispensing_while_active online 100 _ h).2.2.2.2.2.1⟩

/-! ## C3: completion of a session -/

/-- C3. In an active session whose delivered mass `d = getDispensedWeight()` is at
least `targetWeight`, one call of `handleDispensing()` clears `isDispensing`,
writes 0 (closed) to the servo, and makes exactly one
`logDispenseEvent("complete", d)` call; that call posts exactly one event of
weight `d` when WiFi is connected. -/
theorem handleDispensing_completes (net : Net) (c : Controller)
    (hact : c.isDispensing = true)
    (hd : (getDispensedWeight c).1 ≥ c.targetWeight) :
    (handleDispensing net c).isDispensing = false ∧
    (handleDispensing net c).servo = c.servo ++ [0] ∧
    (handleDispensing net c).logged = c.logged ++ [("complete", (getDispensedWeight c).1)] ∧
    (handleDispensing net c).posted =
      (if net.wifiConnected then
        c.posted ++ [{ action := "complete", weight := (getDispensedWeight c).1,
                       timestamp := net.stamp, device_id := "ESP32_001" }]
       else c.posted) ∧
    (handleDispensing net c).currentWeight = c.currentWeight ∧
    (handleDispensing net c).targetWeight = c.targetWeight := by
  have ht : (getDispensedWeight c).2.targetWeight = c.targetWeight := by
    rw [getDispensedWeight_active c hact]
  have hs : (getDispensedWeight c).2.servo = c.servo := by
    rw [getDispensedWeight_active c hact]
  have hl : (getDispensedWeight c).2.logged = c.logged := by
    rw [getDispensedWeight_active c hact]
  have hp : (getDispensedWeight c).2.posted = c.posted := by
    rw [getDispensedWeight_active c hact]
  have hc : (getDispensedWeight c).2.currentWeight = c.currentWeight := by
    rw [getDispensedWeight_active c hact]
  unfold handleDispensing
  simp [ht, hd, logDispenseEvent_frame, hs, hl, hp, hc]

/-- Scenario A: after the sample 150 the delivered mass is 50 and the tick ends
the session with the servo closed and one `complete` event of weight 50. -/
theorem handleDispensing_completes_witness :
    scenarioA.isDispensing = true ∧
    (getDispensedWeight scenarioA).1 = 50 ∧
    (getDispensedWeight scenarioA).1 ≥ scenarioA.targetWeight ∧
    (handleDispensing online scenarioA).isDispensing = false ∧
    (handleDispensing online scenarioA).servo = [0, 90, 0] ∧
    (handleDispensing online scenarioA).logged = [("start", 50), ("complete", 50)] := by
  have hact : scenarioA.isDispensing = true := by rw [scenarioA_eq]
  have hval : (getDispensedWeight scenarioA).1 = 50 := by
    rw [scenarioA_eq]; norm_num [getDispensedWeight]
  have hd : (getDispensedWeight scenarioA).1 ≥ scenarioA.targetWeight := by
    rw [hval, scenarioA_eq]
  have key := handleDispensing_completes online scenarioA hact hd
  refine ⟨hact, hval, hd, key.1, ?_, ?_⟩
  · rw [key.2.1, scenarioA_eq]; rfl
  · rw [key.2.2.1, hval, scenarioA_eq]; rfl

/-! ## C4: sign of the delivered mass -/

theorem noiseSpike_eq :
    noiseSpike =
      { currentWeight := 210, targetWeight := 50, isDispensing := true,
        lastWeightRead := 2000, lastDataSend := 0, initialWeight := 200,
        servo := [0, 90], led := [true], logged := [("start", 50)],
        posted := [{ action := "start", weight := 50, timestamp := 0, device_id := "ESP32_001" }],
        weightPosts := [] } := by
  norm_num [noiseSpike, runLoop, loop, sampleAt, pressAt, subU32, WEIGHT_READ_INTERVAL,
    DATA_SEND_INTERVAL, readWeight, sendWeightData, startDispensing, handleDispensing,
    getDispensedWeight, logDispenseEvent, online, setup]

/-- C4 (as stated, refuted). In a session started by the main loop at 200 g, a
sample of 210 g makes `getDispensedWeight()` return -10: the value is negative,
not clamped to 0. -/
theorem getDispensedWeight_negative_counterexample :
    Reachable noiseSpike ∧
    noiseSpike.isDispensing = true ∧
    noiseSpike.initialWeight < noiseSpike.currentWeight ∧
    (getDispensedWeight noiseSpike).1 = -10 ∧
    ¬ (0 ≤ (getDispensedWeight noiseSpike).1) := by
  refine ⟨⟨_, rfl⟩, ?_⟩
  rw [noiseSpike_eq]
  norm_num [getDispensedWeight]

/-- C4 (amended). `getDispensedWeight()` returns 0 when no session is active and
the unclamped difference baseline - `currentWeight` when one is, the baseline
being the static value after the call; the result is non-negative exactly when
the controller is idle or `currentWeight` does not exceed that baseline. -/
theorem getDispensedWeight_sign (c : Controller) :
    (getDispensedWeight c).1 =
      (if c.isDispensing then (getDispensedWeight c).2.initialWeight - c.currentWeight
       else 0) ∧
    (0 ≤ (getDispensedWeight c).1 ↔
      (c.isDispensing = false ∨ c.currentWeight ≤ (getDispensedWeight c).2.initialWeight)) := by
  cases hact : c.isDispensing
  · rw [getDispensedWeight_idle c hact]
    simp
  · rw [getDispensedWeight_active c hact]
    by_cases h0 : c.initialWeight = 0 <;> simp [h0]

/-! ## C5: non-positive targets -/

/-- C5 (as stated, refuted). `startDispensing(0)` on the freshly set-up, idle
controller is not a no-op: the session becomes active, the servo is commanded
open (90) and a `start` event of weight 0 is logged and posted. -/
theorem startDispensing_zero_counterexample :
    setup.isDispensing = false ∧
    (startDispensing online 0 setup).isDispensing = true ∧
    (startDispensing online 0 setup).servo = [0, 90] ∧
    (startDispensing online 0 setup).logged = [("start", 0)] ∧
    (startDispensing online 0 setup).posted.length = 1 ∧
    ¬ ((startDispensing online 0 setup).isDispensing = false ∧
       (startDispensing online 0 setup).targetWeight = setup.targetWeight ∧
       (startDispensing online 0 setup).servo = setup.servo ∧
       (startDispensing online 0 setup).logged = setup.logged) := by
  norm_num [startDispensing_effect, online, setup]

/-- C5 (amended). `startDispensing` does not validate its argument: for a target
`T <= 0` requested while idle it still sets `targetWeight` to `T`, sets
`isDispensing`, commands the servo open (90) and makes one
`logDispenseEvent("start", T)` call, posted when WiFi is up. -/
theorem startDispensing_nonpositive_target (net : Net) (T : ℚ) (c : Controller)
    (hT : T ≤ 0) (hidle : c.isDispensing = false) :
    (startDispensing net T c).isDispensing = true ∧
    (startDispensing net T c).targetWeight = T ∧
    (startDispensing net T c).servo = c.servo ++ [90] ∧
    (startDispensing net T c).logged = c.logged ++ [("start", T)] ∧
    (net.wifiConnected = true →
      (startDispensing net T c).posted = c.posted ++
        [{ action := "start", weight := T, timestamp := net.stamp,
           device_id := "ESP32_001" }]) := by
  have _ := hT
  have _ := hidle
  rw [startDispensing_effect]
  refine ⟨rfl, rfl, rfl, rfl, ?_⟩
  intro hw
  simp [hw]

theorem startDispensing_nonpositive_target_witness :
    (0 : ℚ) ≤ 0 ∧ setup.isDispensing = false ∧
    (startDispensing online 0 setup).isDispensing = true ∧
    (startDispensing online 0 setup).servo = setup.servo ++ [90] :=
  ⟨le_refl 0, rfl,
    (startDispensing_nonpositive_target online 0 setup (le_refl 0) rfl).1,
    (startDispensing_nonpositive_target online 0 setup (le_refl 0) rfl).2.2.1⟩

/-! ## C6 and C8: `readWeight` -/

/-- C6. When the scale is ready, `readWeight()` stores `max s 0` for the reading
`s`: the stored weight is never negative, and the reading -5 is stored as 0. -/
theorem readWeight_ready_clamps (s : ℚ) (c : Controller) :
    (readWeight true s c).currentWeight = max s 0 ∧
    0 ≤ (readWeight true s c).currentWeight ∧
    (readWeight true (-5) c).currentWeight = 0 := by
  unfold readWeight
  refine ⟨?_, ?_, ?_⟩
  · by_cases h : s < 0
    · simp [h, max_eq_right (le_of_lt h)]
    · simp [h, max_eq_left (not_lt.mp h)]
  · by_cases h : s < 0
    · simp [h]
    · simp [h, not_lt.mp h]
  · norm_num

/-- C8. When the scale reports not ready, `readWeight()` returns the state
unchanged, whatever the sensor would have read. -/
theorem readWeight_not_ready (s : ℚ) (c : Controller) :
    readWeight false s c = c ∧
    (readWeight false s c).currentWeight = c.currentWeight ∧
    (readWeight false s c).targetWeight = c.targetWeight ∧
    (readWeight false s c).isDispensing = c.isDispensing ∧
    (readWeight false s c).initialWeight = c.initialWeight := by
  simp [readWeight]

/-- Every path through `loop()` keeps `currentWeight` non-negative. -/
theorem loop_currentWeight_nonneg (i : LoopIn) (c : Controller)
    (h : 0 ≤ c.currentWeight) : 0 ≤ (loop i c).currentWeight := by
  have hr : ∀ (r : Bool) (u : ℚ) (d : Controller), 0 ≤ d.currentWeight →
      0 ≤ (readWeight r u d).currentWeight := by
    intro r u d hd
    cases r
    · simpa [readWeight] using hd
    · by_cases hu : u < 0
      · simp [readWeight, hu]
      · simp [readWeight, hu, not_lt.mp hu]
  have hs : ∀ (n : Net) (d : Controller),
      (sendWeightData n d).currentWeight = d.currentWeight := by
    intro n d
    unfold sendWeightData
    split_ifs <;> rfl
  have hh : ∀ (n : Net) (d : Controller),
      (handleDispensing n d).currentWeight = d.currentWeight := by
    intro n d
    unfold handleDispensing getDispensedWeight
    simp only [logDispenseEvent_frame]
    split_ifs <;> rfl
  unfold loop
  simp only []
  split_ifs <;>
    (try simp only [hh, hs, startDispensing_effect]) <;>
    first
      | exact h
      | exact hr _ _ _ h

/-- The weight held by the firmware between loop iterations is never negative. -/
theorem currentWeight_nonneg_of_reachable (c : Controller) (h : Reachable c) :
    0 ≤ c.currentWeight := by
  obtain ⟨ins, rfl⟩ := h
  unfold runLoop
  have gen : ∀ (l : List LoopIn) (d : Controller), 0 ≤ d.currentWeight →
      0 ≤ (l.foldl (fun c i => loop i c) d).currentWeight := by
    intro l
    induction l with
    | nil => intro d hd; simpa using hd
    | cons i rest ih =>
      intro d hd
      simp only [List.foldl_cons]
      exact ih _ (loop_currentWeight_nonneg i d hd)
  exact gen ins setup (by simp [setup])

/-! ## C7: stability of the baseline during a session -/

theorem zeroStart_eq :
    zeroStart =
      { currentWeight := 5, targetWeight := 50, isDispensing := true,
        lastWeightRead := 1000, lastDataSend := 0, initialWeight := 5,
        servo := [0, 90], led := [true], logged := [("start", 50)],
        posted := [{ action := "start", weight := 50, timestamp := 0, device_id := "ESP32_001" }],
        weightPosts := [] } := by
  norm_num [zeroStart, runLoop, loop, sampleAt, pressAt, subU32, WEIGHT_READ_INTERVAL,
    DATA_SEND_INTERVAL, readWeight, sendWeightData, startDispensing, handleDispensing,
    getDispensedWeight, logDispenseEvent, online, setup]

/-- C7 (the code departs from the claim). A session started by the main loop
while `currentWeight` is 0 has start weight 0, yet after the next sample (5 g)
and tick the baseline held by `getDispensedWeight()` is 5: it was captured again
in mid-session. A later sample of 3 g then yields a delivered mass of 2, where
(weight at session start) - `currentWeight` is -3. -/
theorem baseline_recaptured_when_start_weight_zero :
    (runLoop [pressAt 100 0]).isDispensing = true ∧
    (runLoop [pressAt 100 0]).currentWeight = 0 ∧
    Reachable zeroStart ∧
    zeroStart.isDispensing = true ∧
    zeroStart.initialWeight = 5 ∧
    (getDispensedWeight (readWeight true 3 zeroStart)).1 = 2 ∧
    (getDispensedWeight (readWeight true 3 zeroStart)).1 ≠
      (runLoop [pressAt 100 0]).currentWeight - (readWeight true 3 zeroStart).currentWeight := by
  refine ⟨?_, ?_, ⟨_, rfl⟩, ?_⟩
  · norm_num [runLoop, loop, pressAt, subU32, WEIGHT_READ_INTERVAL,
      DATA_SEND_INTERVAL, startDispensing, handleDispensing,
      getDispensedWeight, logDispenseEvent, online, setup]
  · norm_num [runLoop, loop, pressAt, subU32, WEIGHT_READ_INTERVAL,
      DATA_SEND_INTERVAL, startDispensing, handleDispensing,
      getDispensedWeight, logDispenseEvent, online, setup]
  · rw [zeroStart_eq]
    norm_num [runLoop, loop, pressAt, subU32, WEIGHT_READ_INTERVAL,
      DATA_SEND_INTERVAL, startDispensing, handleDispensing, readWeight,
      getDispensedWeight, logDispenseEvent, online, setup]

/-- Once the static baseline is non-zero, ticks and samples of an active session
leave it alone. -/
theorem baseline_kept_when_nonzero (net : Net) (r : Bool) (u : ℚ) (c : Controller)
    (hact : c.isDispensing = true) (h0 : c.initialWeight ≠ 0) :
    (getDispensedWeight c).2.initialWeight = c.initialWeight ∧
    (handleDispensing net c).initialWeight = c.initialWeight ∧
    (readWeight r u c).initialWeight = c.initialWeight := by
  refine ⟨?_, ?_, ?_⟩
  · rw [getDispensedWeight_active c hact]; simp [h0]
  · unfold handleDispensing
    rw [getDispensedWeight_active c hact]
    simp only [logDispenseEvent_frame, h0, if_false]
    split_ifs <;> rfl
  · cases r
    · rfl
    · by_cases hu : u < 0 <;> simp [readWeight, hu]

/-! ## C9: the event sink has no influence on the controller -/

/-- C9. Whatever the WiFi status, the timestamp and the HTTP response seen by
`logDispenseEvent`, the states produced by `startDispensing` and by
`handleDispensing` agree on every field except the list of posted payloads; in
particular `currentWeight`, `targetWeight`, `isDispensing`, the baseline and the
servo commands are identical. -/
theorem event_sink_cannot_influence (n1 n2 : Net) (T : ℚ) (c : Controller) :
    withoutPosted (startDispensing n1 T c) = withoutPosted (startDispensing n2 T c) ∧
    withoutPosted (handleDispensing n1 c) = withoutPosted (handleDispensing n2 c) ∧
    controlState (startDispensing n1 T c) = controlState (startDispensing n2 T c) ∧
    controlState (handleDispensing n1 c) = controlState (handleDispensing n2 c) := by
  have hs : withoutPosted (startDispensing n1 T c) =
      withoutPosted (startDispensing n2 T c) := by
    simp [startDispensing_effect, withoutPosted]
  have hh : withoutPosted (handleDispensing n1 c) =
      withoutPosted (handleDispensing n2 c) := by
    unfold handleDispensing
    simp only [logDispenseEvent_frame]
    split_ifs <;> simp [withoutPosted]
  have hc : ∀ a b : Controller, withoutPosted a = withoutPosted b →
      controlState a = controlState b := by
    intro a b hab
    cases a
    cases b
    simp only [withoutPosted, Controller.mk.injEq] at hab
    simp [controlState, hab]
  exact ⟨hs, hh, hc _ _ hs, hc _ _ hh⟩

/-! ## C10: a tick below the target -/

/-- C10. In an active session whose delivered mass is strictly below
`targetWeight`, one call of `handleDispensing()` keeps `isDispensing` true,
leaves `targetWeight` and `currentWeight` unchanged, sends no servo command,
writes nothing to the LED and logs or posts no event: the state after the call
is the state `getDispensedWeight()` leaves behind. -/
theorem handleDispensing_below_target (net : Net) (c : Controller)
    (hact : c.isDispensing = true)
    (hd : (getDispensedWeight c).1 < c.targetWeight) :
    handleDispensing net c = (getDispensedWeight c).2 ∧
    (handleDispensing net c).isDispensing = true ∧
    (handleDispensing net c).targetWeight = c.targetWeight ∧
    (handleDispensing net c).currentWeight = c.currentWeight ∧
    (handleDispensing net c).servo = c.servo ∧
    (handleDispensing net c).led = c.led ∧
    (handleDispensing net c).logged = c.logged ∧
    (handleDispensing net c).posted = c.posted := by
  have ht : (getDispensedWeight c).2.targetWeight = c.targetWeight := by
    rw [getDispensedWeight_active c hact]
  have he : handleDispensing net c = (getDispensedWeight c).2 := by
    unfold handleDispensing
    simp [ht, not_le.mpr hd]
  rw [he, getDispensedWeight_active c hact]
  exact ⟨rfl, hact, rfl, rfl, rfl, rfl, rfl, rfl⟩

theorem midSession_eq :
    midSession =
      { currentWeight := 180, targetWeight := 50, isDispensing := true,
        lastWeightRead := 0, lastDataSend := 0, initialWeight := 200,
        servo := [0, 90], led := [true], logged := [("start", 50)],
        posted := [{ action := "start", weight := 50, timestamp := 0, device_id := "ESP32_001" }],
        weightPosts := [] } := by
  norm_num [midSession, readWeight, startDispensing, handleDispensing,
    getDispensedWeight, logDispenseEvent, online, setup]

theorem handleDispensing_below_target_witness :
    midSession.isDispensing = true ∧
    (getDispensedWeight midSession).1 < midSession.targetWeight ∧
    (handleDispensing offline midSession).isDispensing = true ∧
    (handleDispensing offline midSession).servo = midSession.servo ∧
    (handleDispensing offline midSession).logged = midSession.logged := by
  have hact : midSession.isDispensing = true := by rw [midSession_eq]
  have hd : (getDispensedWeight midSession).1 < midSession.targetWeight := by
    rw [midSession_eq]; norm_num [getDispensedWeight]
  have key := handleDispensing_below_target offline midSession hact hd
  exact ⟨hact, hd, key.2.1, key.2.2.2.2.1, key.2.2.2.2.2.2.1⟩

/-! ## The main loop -/

theorem readWeight_frame (r : Bool) (u : ℚ) (c : Controller) :
    readWeight r u c = { c with currentWeight := (readWeight r u c).currentWeight } := by
  cases r
  · rfl
  · by_cases hu : u < 0 <;> simp [readWeight, hu]

theorem sendWeightData_frame (net : Net) (c : Controller) :
    sendWeightData net c =
      { c with weightPosts := if net.wifiConnected then
          c.weightPosts ++ [{ weight := c.currentWeight, timestamp := net.stamp,
                              device_id := "ESP32_001" }]
        else c.weightPosts } := by
  unfold sendWeightData
  cases net.wifiConnected <;> simp

/-- Fields that `handleDispensing()` never writes. -/
theorem handleDispensing_frame (net : Net) (c : Controller) :
    (handleDispensing net c).targetWeight = c.targetWeight ∧
    (handleDispensing net c).currentWeight = c.currentWeight ∧
    (handleDispensing net c).lastWeightRead = c.lastWeightRead ∧
    (handleDispensing net c).lastDataSend = c.lastDataSend ∧
    (handleDispensing net c).weightPosts = c.weightPosts := by
  unfold handleDispensing getDispensedWeight
  simp only [logDispenseEvent_frame]
  split_ifs <;> exact ⟨rfl, rfl, rfl, rfl, rfl⟩

/-- The only servo command and the only event `handleDispensing()` can add are
the closing write and one `complete` event. -/
theorem handleDispensing_traces (net : Net) (c : Controller) :
    ((handleDispensing net c).servo = c.servo ∧ (handleDispensing net c).logged = c.logged ∧
      (handleDispensing net c).posted = c.posted) ∨
    ((handleDispensing net c).servo = c.servo ++ [0] ∧
      ∃ d : ℚ, (handleDispensing net c).logged = c.logged ++ [("complete", d)] ∧
        ((handleDispensing net c).posted = c.posted ∨
         (handleDispensing net c).posted = c.posted ++
           [{ action := "complete", weight := d, timestamp := net.stamp,
              device_id := "ESP32_001" }])) := by
  unfold handleDispensing getDispensedWeight
  simp only [logDispenseEvent_frame]
  split_ifs
  all_goals first
    | exact Or.inl ⟨rfl, rfl, rfl⟩
    | exact Or.inr ⟨rfl, _, rfl, Or.inl rfl⟩
    | exact Or.inr ⟨rfl, _, rfl, Or.inr rfl⟩

/-- The two timer blocks at the top of `loop()` followed by the button test and
the tick, with the state between the timers and the button test made explicit. -/
theorem loop_decompose (i : LoopIn) (c : Controller) :
    ∃ c2 : Controller,
      c2 = { c with
        currentWeight :=
          if WEIGHT_READ_INTERVAL ≤ subU32 i.currentTime c.lastWeightRead
          then (readWeight i.scaleReady i.units c).currentWeight else c.currentWeight,
        lastWeightRead :=
          if WEIGHT_READ_INTERVAL ≤ subU32 i.currentTime c.lastWeightRead
          then i.currentTime else c.lastWeightRead,
        lastDataSend :=
          if DATA_SEND_INTERVAL ≤ subU32 i.currentTime c.lastDataSend
          then i.currentTime else c.lastDataSend,
        weightPosts :=
          if DATA_SEND_INTERVAL ≤ subU32 i.currentTime c.lastDataSend ∧
              i.netSend.wifiConnected = true
          then c.weightPosts ++
            [{ weight :=
                 if WEIGHT_READ_INTERVAL ≤ subU32 i.currentTime c.lastWeightRead
                 then (readWeight i.scaleReady i.units c).currentWeight else c.currentWeight,
               timestamp := i.netSend.stamp, device_id := "ESP32_001" }]
          else c.weightPosts } ∧
      loop i c =
        if (i.buttonLow && !c.isDispensing) = true then
          handleDispensing i.netComplete (startDispensing i.netStart 50 c2)
        else if c.isDispensing = true then handleDispensing i.netComplete c2
        else c2 := by
  refine ⟨_, rfl, ?_⟩
  unfold loop
  simp only [ge_iff_le]
  rw [readWeight_frame i.scaleReady i.units c]
  obtain ⟨cw, tw, disp, lw, ls, iw, sv, ld, lg, ps, wp⟩ := c
  simp only []
  by_cases hW : WEIGHT_READ_INTERVAL ≤ subU32 i.currentTime lw <;>
  by_cases hS : DATA_SEND_INTERVAL ≤ subU32 i.currentTime ls <;>
  by_cases hN : i.netSend.wifiConnected = true <;>
  by_cases hB : i.buttonLow = true <;>
  cases disp <;>
  simp [hW, hS, hN, hB, sendWeightData_frame, startDispensing_effect]

/-- Unsigned 32-bit subtraction recovers an elapsed time below `2^32`, also when
the counter wrapped in between. -/
theorem subU32_elapsed (last d : Nat) (hd : d < 2 ^ 32) :
    subU32 ((last + d) % 2 ^ 32) last = d := by
  unfold subU32
  norm_num at hd ⊢
  omega

/-- What one iteration of `loop()` does to the timer variables, the weight and
the posted weight records, in terms of the two unsigned differences. -/
theorem loop_timer_fields (i : LoopIn) (c : Controller) :
    (loop i c).lastWeightRead =
      (if WEIGHT_READ_INTERVAL ≤ subU32 i.currentTime c.lastWeightRead
       then i.currentTime else c.lastWeightRead) ∧
    (loop i c).currentWeight =
      (if WEIGHT_READ_INTERVAL ≤ subU32 i.currentTime c.lastWeightRead
       then (readWeight i.scaleReady i.units c).currentWeight else c.currentWeight) ∧
    (loop i c).lastDataSend =
      (if DATA_SEND_INTERVAL ≤ subU32 i.currentTime c.lastDataSend
       then i.currentTime else c.lastDataSend) ∧
    (loop i c).weightPosts =
      (if DATA_SEND_INTERVAL ≤ subU32 i.currentTime c.lastDataSend ∧
          i.netSend.wifiConnected = true
       then c.weightPosts ++
         [{ weight := (loop i c).currentWeight, timestamp := i.netSend.stamp,
            device_id := "ESP32_001" }]
       else c.weightPosts) := by
  obtain ⟨c2, hc2, hloop⟩ := loop_decompose i c
  have hf : (loop i c).lastWeightRead = c2.lastWeightRead ∧
      (loop i c).currentWeight = c2.currentWeight ∧
      (loop i c).lastDataSend = c2.lastDataSend ∧
      (loop i c).weightPosts = c2.weightPosts := by
    rw [hloop]
    split_ifs
    · obtain ⟨-, h2, h3, h4, h5⟩ :=
        handleDispensing_frame i.netComplete (startDispensing i.netStart 50 c2)
      rw [h2, h3, h4, h5, startDispensing_effect]
      exact ⟨rfl, rfl, rfl, rfl⟩
    · obtain ⟨-, h2, h3, h4, h5⟩ := handleDispensing_frame i.netComplete c2
      exact ⟨h3, h2, h4, h5⟩
    · exact ⟨rfl, rfl, rfl, rfl⟩
  obtain ⟨f1, f2, f3, f4⟩ := hf
  rw [f1, f2, f3, f4, hc2]
  exact ⟨rfl, rfl, rfl, rfl⟩

theorem beforeWrap_eq :
    beforeWrap =
      { currentWeight := 200, targetWeight := 0, isDispensing := false,
        lastWeightRead := 4294966796, lastDataSend := 4294966796, initialWeight := 0,
        servo := [0], led := [true], logged := [], posted := [],
        weightPosts := [{ weight := 200, timestamp := 0, device_id := "ESP32_001" }] } := by
  norm_num [beforeWrap, runLoop, loop, sampleAt, subU32, WEIGHT_READ_INTERVAL,
    DATA_SEND_INTERVAL, readWeight, sendWeightData, online, setup]

/-! ## C11: the button cannot start a session on top of an active one -/

/-- C11. An iteration of `loop()` entered with `isDispensing` true does the same
whatever the button reads: `targetWeight` is unchanged, the servo receives no
opening command and no `start` event is logged or posted (the only possible
additions are the closing write and one `complete` event). An iteration entered
idle with the button pressed sets `targetWeight` to exactly 50, opens the servo
and logs `start` with weight 50. -/
theorem loop_never_restarts_active_session (i : LoopIn) (c : Controller) :
    (c.isDispensing = true →
      loop i c = loop { i with buttonLow := false } c ∧
      loop i c = loop { i with buttonLow := true } c ∧
      (loop i c).targetWeight = c.targetWeight ∧
      (((loop i c).servo = c.servo ∧ (loop i c).logged = c.logged ∧
          (loop i c).posted = c.posted) ∨
       ((loop i c).servo = c.servo ++ [0] ∧
          ∃ d : ℚ, (loop i c).logged = c.logged ++ [("complete", d)] ∧
            ((loop i c).posted = c.posted ∨
             (loop i c).posted = c.posted ++
               [{ action := "complete", weight := d, timestamp := i.netComplete.stamp,
                  device_id := "ESP32_001" }])))) ∧
    (c.isDispensing = false → i.buttonLow = true →
      (loop i c).targetWeight = 50 ∧
      (∃ rest : List Nat, (loop i c).servo = c.servo ++ 90 :: rest) ∧
      (∃ rest : List (String × ℚ), (loop i c).logged = c.logged ++ ("start", 50) :: rest)) := by
  obtain ⟨c2, hc2, hloop⟩ := loop_decompose i c
  constructor
  · intro hD
    have hrun : loop i c = handleDispensing i.netComplete c2 := by
      rw [hloop]; simp [hD]
    have hany : ∀ b : Bool, loop { i with buttonLow := b } c =
        handleDispensing i.netComplete c2 := by
      intro b
      obtain ⟨c2b, hc2b, hloopb⟩ := loop_decompose { i with buttonLow := b } c
      have hsame : c2b = c2 := by rw [hc2b, hc2]
      rw [hloopb, hsame]; simp [hD]
    refine ⟨by rw [hrun, hany], by rw [hrun, hany], ?_, ?_⟩
    · rw [hrun, (handleDispensing_frame i.netComplete c2).1, hc2]
    · have ht := handleDispensing_traces i.netComplete c2
      have hs : c2.servo = c.servo := by rw [hc2]
      have hl : c2.logged = c.logged := by rw [hc2]
      have hp : c2.posted = c.posted := by rw [hc2]
      rw [hs, hl, hp] at ht
      rw [hrun]
      exact ht
  · intro hD hB
    have hrun : loop i c =
        handleDispensing i.netComplete (startDispensing i.netStart 50 c2) := by
      rw [hloop]; simp [hD, hB]
    have hs : (startDispensing i.netStart 50 c2).servo = c.servo ++ [90] := by
      rw [startDispensing_effect, hc2]
    have hl : (startDispensing i.netStart 50 c2).logged = c.logged ++ [("start", 50)] := by
      rw [startDispensing_effect, hc2]
    have ht := handleDispensing_traces i.netComplete (startDispensing i.netStart 50 c2)
    rw [hs, hl] at ht
    rw [hrun]
    refine ⟨?_, ?_, ?_⟩
    · rw [(handleDispensing_frame _ _).1, startDispensing_effect]
    · rcases ht with ⟨h1, -, -⟩ | ⟨h1, -⟩
      · exact ⟨[], h1⟩
      · exact ⟨[0], by rw [h1]; simp⟩
    · rcases ht with ⟨-, h1, -⟩ | ⟨-, d, h1, -⟩
      · exact ⟨[], h1⟩
      · exact ⟨[("complete", d)], by rw [h1]; simp⟩

/-- The button pressed during the running session `midSession` changes nothing
about the target; pressed on the idle controller after `setup()` it starts a
session with target 50. -/
theorem loop_never_restarts_active_session_witness :
    midSession.isDispensing = true ∧
    (loop (pressAt 100 180) midSession).targetWeight = midSession.targetWeight ∧
    loop (pressAt 100 180) midSession =
      loop { pressAt 100 180 with buttonLow := false } midSession ∧
    setup.isDispensing = false ∧ (pressAt 100 0).buttonLow = true ∧
    (loop (pressAt 100 0) setup).targetWeight = 50 := by
  have hact : midSession.isDispensing = true := by rw [midSession_eq]
  have key := (loop_never_restarts_active_session (pressAt 100 180) midSession).1 hact
  have key2 := (loop_never_restarts_active_session (pressAt 100 0) setup).2 rfl rfl
  exact ⟨hact, key.2.2.1, key.1, rfl, rfl, key2.1⟩

/-! ## C12: the loop timers across `millis()` wraparound -/

/-- C12. Let `dW`, `dS` (both below `2^32`) be the true times elapsed since the
last weight read and the last data send, so that the 32-bit `currentTime` is
`(lastWeightRead + dW) mod 2^32` and `(lastDataSend + dS) mod 2^32`. Then the
weight-read guard of `loop()` holds exactly when `dW >= 1000`: in that case
`readWeight()` determines `currentWeight` and `lastWeightRead` becomes
`currentTime`, otherwise both are unchanged. Likewise the data-send guard holds
exactly when `dS >= 5000`: in that case `sendWeightData()` runs (posting the
weight when WiFi is up) and `lastDataSend` becomes `currentTime`, otherwise
`lastDataSend` and the posted records are unchanged. -/
theorem loop_timers_wraparound (i : LoopIn) (c : Controller) (dW dS : Nat)
    (hW : dW < 2 ^ 32) (hS : dS < 2 ^ 32)
    (hcW : i.currentTime = (c.lastWeightRead + dW) % 2 ^ 32)
    (hcS : i.currentTime = (c.lastDataSend + dS) % 2 ^ 32) :
    (subU32 i.currentTime c.lastWeightRead ≥ WEIGHT_READ_INTERVAL ↔ dW ≥ 1000) ∧
    (loop i c).lastWeightRead = (if dW ≥ 1000 then i.currentTime else c.lastWeightRead) ∧
    (loop i c).currentWeight =
      (if dW ≥ 1000 then (readWeight i.scaleReady i.units c).currentWeight
       else c.currentWeight) ∧
    (subU32 i.currentTime c.lastDataSend ≥ DATA_SEND_INTERVAL ↔ dS ≥ 5000) ∧
    (loop i c).lastDataSend = (if dS ≥ 5000 then i.currentTime else c.lastDataSend) ∧
    (loop i c).weightPosts =
      (if dS ≥ 5000 ∧ i.netSend.wifiConnected = true
       then c.weightPosts ++
         [{ weight := (loop i c).currentWeight, timestamp := i.netSend.stamp,
            device_id := "ESP32_001" }]
       else c.weightPosts) := by
  have eW : subU32 i.currentTime c.lastWeightRead = dW := by
    rw [hcW]; exact subU32_elapsed _ _ hW
  have eS : subU32 i.currentTime c.lastDataSend = dS := by
    rw [hcS]; exact subU32_elapsed _ _ hS
  obtain ⟨f1, f2, f3, f4⟩ := loop_timer_fields i c
  rw [eW] at f1 f2
  rw [eS] at f3 f4
  rw [eW, eS]
  exact ⟨Iff.rfl, f1, f2, Iff.rfl, f3, f4⟩

/-- Last read and last send at `2^32 - 500`; 1000 ms later `millis()` has wrapped
to 500: the weight is read (150 g) and `lastWeightRead` becomes 500, while the
data-send timer, 1000 ms into its 5000, does not fire. -/
theorem loop_timers_wraparound_witness :
    (1000 : Nat) < 2 ^ 32 ∧
    (sampleAt 500 150).currentTime = (beforeWrap.lastWeightRead + 1000) % 2 ^ 32 ∧
    (sampleAt 500 150).currentTime = (beforeWrap.lastDataSend + 1000) % 2 ^ 32 ∧
    (loop (sampleAt 500 150) beforeWrap).lastWeightRead = 500 ∧
    (loop (sampleAt 500 150) beforeWrap).currentWeight = 150 ∧
    (loop (sampleAt 500 150) beforeWrap).lastDataSend = 4294966796 := by
  have h1 : (1000 : Nat) < 2 ^ 32 := by norm_num
  have h2 : (sampleAt 500 150).currentTime = (beforeWrap.lastWeightRead + 1000) % 2 ^ 32 := by
    rw [beforeWrap_eq]; norm_num [sampleAt]
  have h3 : (sampleAt 500 150).currentTime = (beforeWrap.lastDataSend + 1000) % 2 ^ 32 := by
    rw [beforeWrap_eq]; norm_num [sampleAt]
  have key := loop_timers_wraparound (sampleAt 500 150) beforeWrap 1000 1000 h1 h1 h2 h3
  refine ⟨h1, h2, h3, ?_, ?_, ?_⟩
  · rw [key.2.1]; norm_num [sampleAt]
  · rw [key.2.2.1]; norm_num [sampleAt, readWeight]
  · rw [key.2.2.2.2.1, beforeWrap_eq]; norm_num

end RiceDispenser
